import Mathlib

/-!
Verification of the duckex native bridge (src/native/duckex/src/lib.rs).

The development shallowly embeds the two marshalling directions
(`duckdb_value_to_term`, `term_to_duckdb_value`) and the `execute`
body.  Machine integers are modelled as `Int`/`Nat`; Rust release-mode
wrapping arithmetic is made explicit (`wrap64`, `u32sub1`), and the
one construct that aborts in every build profile — the unchecked index
into `days_in_month` — is modelled by returning `none`.
-/

set_option maxRecDepth 8000

namespace Duckex

/-- duckdb::types::TimeUnit. -/
inductive TimeUnit where
  | Second
  | Millisecond
  | Microsecond
  | Nanosecond
deriving DecidableEq

/-- Reinterpretation of an integer as a signed 64-bit
value modulo 2^64 (Rust release-mode wrapping; identity on in-range values). -/
def wrap64 (z : Int) : Int := (z + 2 ^ 63) % 2 ^ 64 - 2 ^ 63

/-- The duckdb crate operation `TimeUnit::to_micros`: seconds and
milliseconds multiply, microseconds pass through, nanoseconds use
the truncating `i64` division of Rust. -/
def TimeUnit.to_micros : TimeUnit → Int → Int
  | .Second, v => wrap64 (v * 1000000)
  | .Millisecond, v => wrap64 (v * 1000)
  | .Microsecond, v => v
  | .Nanosecond, v => Int.tdiv v 1000

/-- duckdb::types::Value.  Constructors carry unbounded `Int`/`Nat`
payloads; the Rust width bounds appear as hypotheses where they
matter.  `Float`/`Double` carry the rational value of the IEEE float
(the code never performs float arithmetic, only an exact f32-to-f64
widening).  `Decimal` carries the debug rendering of the external
`rust_decimal::Decimal`, whose formatting is library code outside this
repository. -/
inductive Value where
  | Null
  | Boolean (b : Bool)
  | TinyInt (i : Int)
  | SmallInt (i : Int)
  | Int (i : Int)
  | BigInt (i : Int)
  | HugeInt (i : Int)
  | UTinyInt (n : Nat)
  | USmallInt (n : Nat)
  | UInt (n : Nat)
  | UBigInt (n : Nat)
  | Float (q : ℚ)
  | Double (q : ℚ)
  | Decimal (dbg : String)
  | Timestamp (u : TimeUnit) (v : Int)
  | Text (s : String)
  | Blob (bytes : List Nat)
  | Date32 (d : Int)
  | Time64 (u : TimeUnit) (v : Int)
  | Interval (months days nanos : Int)
  | List (xs : List Value)
  | Enum (s : String)
  | Struct (fields : List (String × Value))
  | Array (xs : List Value)
  | Map (entries : List (Value × Value))
  | Union (v : Value)

/-- Rust `Debug` escaping for string payloads (quote and backslash;
control-character escapes are not needed by any theorem below). -/
def rustEscape (s : String) : String :=
  String.mk (s.toList.foldr
    (fun c acc => if c = '"' ∨ c = '\\' then '\\' :: c :: acc else c :: acc) [])

def debugTimeUnit : TimeUnit → String
  | .Second => "Second"
  | .Millisecond => "Millisecond"
  | .Microsecond => "Microsecond"
  | .Nanosecond => "Nanosecond"

mutual

/-- The derived `Debug` rendering of `duckdb::types::Value`, used by
the catch-all arms `format!("\x7b:?\x7d", value)` in the source. -/
def debugValue : Value → String
  | .Null => "Null"
  | .Boolean b => "Boolean(" ++ (if b then "true" else "false") ++ ")"
  | .TinyInt i => "TinyInt(" ++ toString i ++ ")"
  | .SmallInt i => "SmallInt(" ++ toString i ++ ")"
  | .Int i => "Int(" ++ toString i ++ ")"
  | .BigInt i => "BigInt(" ++ toString i ++ ")"
  | .HugeInt i => "HugeInt(" ++ toString i ++ ")"
  | .UTinyInt n => "UTinyInt(" ++ toString n ++ ")"
  | .USmallInt n => "USmallInt(" ++ toString n ++ ")"
  | .UInt n => "UInt(" ++ toString n ++ ")"
  | .UBigInt n => "UBigInt(" ++ toString n ++ ")"
  | .Float q => "Float(" ++ toString q ++ ")"
  | .Double q => "Double(" ++ toString q ++ ")"
  | .Decimal dbg => "Decimal(" ++ dbg ++ ")"
  | .Timestamp u v => "Timestamp(" ++ debugTimeUnit u ++ ", " ++ toString v ++ ")"
  | .Text s => "Text(\"" ++ rustEscape s ++ "\")"
  | .Blob bs => "Blob(" ++ toString bs ++ ")"
  | .Date32 d => "Date32(" ++ toString d ++ ")"
  | .Time64 u v => "Time64(" ++ debugTimeUnit u ++ ", " ++ toString v ++ ")"
  | .Interval m d n =>
      "Interval \x7b months: " ++ toString m ++ ", days: " ++ toString d ++
        ", nanos: " ++ toString n ++ " \x7d"
  | .List xs => "List([" ++ debugValueList xs ++ "])"
  | .Enum s => "Enum(\"" ++ rustEscape s ++ "\")"
  | .Struct fs => "Struct(OrderedMap([" ++ debugStructFields fs ++ "]))"
  | .Array xs => "Array([" ++ debugValueList xs ++ "])"
  | .Map es => "Map(OrderedMap([" ++ debugMapEntries es ++ "]))"
  | .Union v => "Union(" ++ debugValue v ++ ")"

def debugValueList : List Value → String
  | [] => ""
  | [v] => debugValue v
  | v :: rest => debugValue v ++ ", " ++ debugValueList rest

def debugStructFields : List (String × Value) → String
  | [] => ""
  | [(k, v)] => "(\"" ++ rustEscape k ++ "\", " ++ debugValue v ++ ")"
  | (k, v) :: rest =>
      "(\"" ++ rustEscape k ++ "\", " ++ debugValue v ++ "), " ++ debugStructFields rest

def debugMapEntries : List (Value × Value) → String
  | [] => ""
  | [(k, v)] => "(" ++ debugValue k ++ ", " ++ debugValue v ++ ")"
  | (k, v) :: rest =>
      "(" ++ debugValue k ++ ", " ++ debugValue v ++ "), " ++ debugMapEntries rest

end

/-- Alphabet of base64::engine::general_purpose::STANDARD. -/
def base64Alphabet : List Char :=
  "ABCDEFGHIJKLMNOPQRSTUVWXYZabcdefghijklmnopqrstuvwxyz0123456789+/".toList

def b64char (n : Nat) : Char := base64Alphabet.getD n 'A'

/-- Model of `general_purpose::STANDARD.encode` over a byte list (bytes are
`Nat` values below 256). -/
def base64Encode : List Nat → String
  | [] => ""
  | [a] =>
      String.mk [b64char (a / 4), b64char (a % 4 * 16)] ++ "=="
  | [a, b] =>
      String.mk [b64char (a / 4), b64char (a % 4 * 16 + b / 16),
        b64char (b % 16 * 4)] ++ "="
  | a :: b :: c :: rest =>
      String.mk [b64char (a / 4), b64char (a % 4 * 16 + b / 16),
        b64char (b % 16 * 4 + c / 64), b64char (c % 64)] ++ base64Encode rest

/-- Source function `duckdb_value_to_string` (lib.rs): reduce a map key to a string. -/
def duckdb_value_to_string : Value → String
  | .Text s => s
  | .Blob b => base64Encode b
  | v => debugValue v

/-- The Elixir/Erlang terms that can cross the NIF boundary, as seen
through the rustler operations the source uses.  A binary carries
`some s` when it is the UTF-8 encoding of the string `s` (so that
`decode::<String>` succeeds) and `none` otherwise.  `otherT` stands
for terms outside every structural test in the source (pids, ports,
references, functions). -/
inductive ElixirTerm where
  | intT (i : Int)
  | floatT (q : ℚ)
  | atomT (s : String)
  | binT (utf8 : Option String)
  | listT (xs : List ElixirTerm)
  | tupleT (xs : List ElixirTerm)
  | mapT (entries : List (ElixirTerm × ElixirTerm))
  | otherT

/-- The cast `u64 as i64`: narrowing of an unsigned 64-bit
payload. -/
def u64AsI64 (n : Nat) : Int := if n < 2 ^ 63 then (n : Int) else (n : Int) - 2 ^ 64

mutual

/-- Source function `duckdb_value_to_term` (lib.rs lines 36-77): engine Value to host
term, total over the whole value model.  Booleans and `nil` encode as
atoms, strings as binaries, `(String, Term)` pairs as 2-tuples,
vectors as lists — the rustler `Encoder` instances for those types. -/
def duckdb_value_to_term : Value → ElixirTerm
  | .Null => .atomT "nil"
  | .Boolean b => .atomT (if b then "true" else "false")
  | .TinyInt i => .intT i
  | .SmallInt i => .intT i
  | .Int i => .intT i
  | .BigInt i => .intT i
  | .UTinyInt n => .intT n
  | .USmallInt n => .intT n
  | .UInt n => .intT n
  | .UBigInt n => .intT (u64AsI64 n)
  | .Float q => .floatT q
  | .Double q => .floatT q
  | .Timestamp u v => .intT (u.to_micros v)
  | .Date32 d => .intT d
  | .Text s => .binT (some s)
  | .Blob b => .binT (some (base64Encode b))
  | .Time64 u v => .intT (u.to_micros v)
  | .List xs => .listT (duckdbValuesToTerms xs)
  | .Enum s => .binT (some s)
  | .Struct fs => .listT (structFieldsToTerms fs)
  | .Map es => .listT (mapEntriesToTerms es)
  | .Array xs => .listT (duckdbValuesToTerms xs)
  | .Union v => duckdb_value_to_term v
  | v => .binT (some (debugValue v))

def duckdbValuesToTerms : List Value → List ElixirTerm
  | [] => []
  | v :: rest => duckdb_value_to_term v :: duckdbValuesToTerms rest

def structFieldsToTerms : List (String × Value) → List ElixirTerm
  | [] => []
  | (k, v) :: rest =>
      .tupleT [.binT (some k), duckdb_value_to_term v] :: structFieldsToTerms rest

def mapEntriesToTerms : List (Value × Value) → List ElixirTerm
  | [] => []
  | (k, v) :: rest =>
      .tupleT [.binT (some (duckdb_value_to_string k)), duckdb_value_to_term v]
        :: mapEntriesToTerms rest

end

/-! ## rustler decode / type-test operations used by `term_to_duckdb_value` -/

/-- The rustler test `Term::is_number` (integers and floats). -/
def is_number : ElixirTerm → Bool
  | .intT _ => true
  | .floatT _ => true
  | _ => false

def is_map : ElixirTerm → Bool
  | .mapT _ => true
  | _ => false

def is_list : ElixirTerm → Bool
  | .listT _ => true
  | _ => false

def is_atom : ElixirTerm → Bool
  | .atomT _ => true
  | _ => false

def is_binary : ElixirTerm → Bool
  | .binT _ => true
  | _ => false

def is_tuple : ElixirTerm → Bool
  | .tupleT _ => true
  | _ => false

/-- The rustler `decode::<i64>`: succeeds exactly on integer terms in signed
64-bit range (Elixir integers are unbounded; `enif_get_int64` rejects
out-of-range bignums and non-integers). -/
def decode_i64 : ElixirTerm → Option Int
  | .intT i => if -(2 ^ 63) ≤ i ∧ i < 2 ^ 63 then some i else none
  | _ => none

/-- The rustler `decode::<i32>`. -/
def decode_i32 : ElixirTerm → Option Int
  | .intT i => if -(2 ^ 31) ≤ i ∧ i < 2 ^ 31 then some i else none
  | _ => none

/-- The rustler `decode::<u32>` (result kept as the non-negative integer). -/
def decode_u32 : ElixirTerm → Option Nat
  | .intT i => if 0 ≤ i ∧ i < 2 ^ 32 then some i.toNat else none
  | _ => none

/-- The rustler `decode::<f64>`: succeeds only on float terms (`enif_get_double`
does not convert integers). -/
def decode_f64 : ElixirTerm → Option ℚ
  | .floatT q => some q
  | _ => none

/-- The rustler `decode::<String>`: succeeds exactly on binaries holding valid
UTF-8. -/
def decode_string : ElixirTerm → Option String
  | .binT (some s) => some s
  | _ => none

/-- Elixir truthiness (rustler types/truthy.rs): every term is
truthy except the atoms `false` and `nil`. -/
def is_truthy : ElixirTerm → Bool
  | .atomT s => !(s == "false" || s == "nil")
  | _ => true

/-- The rustler `decode::<bool>` is infallible: the rustler bool
Decoder is `Ok(term.is_truthy())`, so it succeeds on every term and
is false exactly for the atoms `false` and `nil`. -/
def decode_bool (t : ElixirTerm) : Option Bool :=
  some (is_truthy t)

/-- The rustler `atom_to_string`. -/
def atom_to_string : ElixirTerm → Option String
  | .atomT s => some s
  | _ => none

/-- The rustler `decode::<(i64, u32)>` followed by `.map(|(v, _)| v)` — the
`microsecond` field of an Elixir `DateTime` is a
`\x7bvalue, precision\x7d` pair. -/
def decode_microsecond_pair : ElixirTerm → Option Int
  | .tupleT [a, b] =>
      match decode_i64 a, decode_u32 b with
      | some v, some _ => some v
      | _, _ => none
  | _ => none

/-- The `HashMap<String, Term>` built from `MapIterator`: keep only
atom-keyed entries; `HashMap::insert` lets a later duplicate key
overwrite an earlier one, hence `getLast?`. -/
def getField (entries : List (ElixirTerm × ElixirTerm)) (name : String) :
    Option ElixirTerm :=
  (entries.filterMap (fun kv =>
    match kv.1 with
    | .atomT s => if s = name then some kv.2 else none
    | _ => none)).getLast?

/-! ## Calendar arithmetic (the `Elixir.DateTime` branch) -/

/-- The leap-year test as written in the source:
`(y % 4 == 0 && y % 100 != 0) || (y % 400 == 0)`. -/
def isLeapCode (y : Int) : Bool := (y % 4 == 0 && y % 100 != 0) || (y % 400 == 0)

/-- The `days_in_month` table (February is 29 in a leap year). -/
def days_in_month (leap : Bool) : List Int :=
  [31, if leap then 29 else 28, 31, 30, 31, 30, 31, 31, 30, 31, 30, 31]

/-- The loop `for y in 1970..year_val \x7b days += 365 or 366 \x7d`; the Rust
range is empty when `year ≤ 1970`. -/
def yearLoopDays (year : Int) : Int :=
  (List.range (year - 1970).toNat).foldl
    (fun (acc : Int) (i : Nat) => acc + (if isLeapCode (1970 + (i : Int)) then 366 else 365)) 0

/-- The loop `for m in 1..month_val \x7b days += days_in_month[(m - 1) as usize] \x7d`:
the unchecked index panics (in every build profile) once `m - 1`
reaches 12, i.e. for `month ≥ 14`; modelled by `none`. -/
def monthLoopDays (leap : Bool) (month : Nat) : Option Int :=
  (List.range (month - 1)).foldl
    (fun acc i => do
      let a ← acc
      let d ← (days_in_month leap).get? i
      pure (a + d))
    (some 0)

/-- The subtraction `(day_val - 1) as i64` where `day_val : u32`: release-mode
wrapping subtraction (0 wraps to `2^32 - 1`). -/
def u32sub1 (d : Nat) : Nat := if d = 0 then 2 ^ 32 - 1 else d - 1

/-- The whole timestamp computation of the `Elixir.DateTime` branch
(lib.rs lines 300-329).  All `i64` operations wrap in release mode;
wrapping each operation is equivalent to wrapping the exact integer
result once, which `wrap64` does.  `none` models the unchecked
month-table index aborting. -/
def civilToEpochMicros (year : Int) (month day hour minute second : Nat)
    (micro : Int) : Option Int :=
  match monthLoopDays (isLeapCode year) month with
  | none => none
  | some md =>
    some (wrap64 ((yearLoopDays year + md + (u32sub1 day : Int)) * 86400 * 1000000 +
      (hour : Int) * 3600 * 1000000 + (minute : Int) * 60 * 1000000 +
      (second : Int) * 1000000 + micro))

/-- Zero-padding to width `w` (Rust `\x7b:0w\x7d`). -/
def zfill (w : Nat) (s : String) : String :=
  if s.length ≥ w then s else String.mk (List.replicate (w - s.length) '0') ++ s

/-- Rust `\x7b:04\x7d` for a signed value: the zero fill goes between
the sign and the digits and the width counts the sign. -/
def fmtIntWidth (w : Nat) (i : Int) : String :=
  if i < 0 then "-" ++ zfill (w - 1) (toString i.natAbs) else zfill w (toString i.toNat)

def fmtNatWidth (w : Nat) (n : Nat) : String := zfill w (toString n)

/-- Model of `format!("\x7b:04\x7d-\x7b:02\x7d-\x7b:02\x7d", year, month, day)`. -/
def date_string (year : Int) (month day : Nat) : String :=
  fmtIntWidth 4 year ++ "-" ++ fmtNatWidth 2 month ++ "-" ++ fmtNatWidth 2 day

/-! ## `term_to_duckdb_value` -/

/-- Outcome of the struct-map inspection at the top of
`term_to_duckdb_value`: either an early `return`, an abort inside the
calendar arithmetic, or control falling through to the scalar
dispatch. -/
inductive MapBranchResult where
  | ret (v : Value)
  | aborted
  | fallthrough

/-- The `Elixir.Date` arm (lib.rs lines 273-283): the `if let` over
the three decoded fields. -/
def dateBranch (oy : Option Int) (om od : Option Nat) : MapBranchResult :=
  match oy, om, od with
  | some y, some m, some d => .ret (.Text (date_string y m d))
  | _, _, _ => .fallthrough

/-- The `Elixir.DateTime` arm (lib.rs lines 285-331): the `if let`
over the seven decoded fields, then the calendar arithmetic. -/
def datetimeBranch (oy : Option Int) (om od oh omi os : Option Nat)
    (ous : Option Int) : MapBranchResult :=
  match oy, om, od, oh, omi, os, ous with
  | some y, some mo, some d, some h, some mi, some s, some us =>
      match civilToEpochMicros y mo d h mi s us with
      | some total => .ret (.Timestamp .Microsecond total)
      | none => .aborted
  | _, _, _, _, _, _, _ => .fallthrough

/-- The `is_map` branch of `term_to_duckdb_value` (lib.rs lines
255-335): look for `__struct__`, handle `Elixir.Date` (ISO-8601 text)
and `Elixir.DateTime` (epoch microseconds); any failed decode falls
through. -/
def mapBranch (es : List (ElixirTerm × ElixirTerm)) : MapBranchResult :=
  match atom_to_string (getField es "__struct__" |>.getD .otherT) with
  | none => .fallthrough
  | some module_str =>
    if module_str = "Elixir.Date" then
      dateBranch ((getField es "year").bind decode_i32)
        ((getField es "month").bind decode_u32)
        ((getField es "day").bind decode_u32)
    else if module_str = "Elixir.DateTime" then
      datetimeBranch ((getField es "year").bind decode_i32)
        ((getField es "month").bind decode_u32)
        ((getField es "day").bind decode_u32)
        ((getField es "hour").bind decode_u32)
        ((getField es "minute").bind decode_u32)
        ((getField es "second").bind decode_u32)
        ((getField es "microsecond").bind decode_microsecond_pair)
    else .fallthrough

/-- The error-message classifier chain (lib.rs lines 363-377). -/
def typeInfo (t : ElixirTerm) : String :=
  if is_number t then "number (but failed to decode as i64 or f64)"
  else if is_map t then "map (unsupported structure)"
  else if is_list t then "list (not yet supported)"
  else if is_atom t then "atom (not nil)"
  else if is_binary t then "binary (failed to decode as string)"
  else if is_tuple t then "tuple (not supported)"
  else "unknown type"

/-- The string, boolean and nil checks of `term_to_duckdb_value`
(lib.rs lines 346-360), ending at the error return.  Because the
boolean decode never fails, the nil branch (lines 354-359) and the
error classifier (lines 362-379) below it are unreachable; they are
mirrored here as the dead code they are in the source. -/
def afterNumberChain (t : ElixirTerm) : Except String Value :=
  match decode_string t with
  | some s => .ok (.Text s)
  | none =>
    match decode_bool t with
    | some b => .ok (.Boolean b)
    | none =>
      if atom_to_string t = some "nil" then .ok .Null
      else .error ("Unsupported parameter type: " ++ typeInfo t)

/-- The scalar dispatch of `term_to_duckdb_value` after the struct-map
branch has fallen through (lib.rs lines 337-344 and onward). -/
def scalarChain (t : ElixirTerm) : Except String Value :=
  if is_number t then
    match decode_i64 t with
    | some i => .ok (.BigInt i)
    | none =>
      match decode_f64 t with
      | some f => .ok (.Double f)
      | none => afterNumberChain t
  else afterNumberChain t

/-- Source function `term_to_duckdb_value` (lib.rs lines 254-380).  `none` models the
abort of the unchecked month-table index; otherwise the function
returns a `Value` or a descriptive error string. -/
def term_to_duckdb_value (t : ElixirTerm) : Option (Except String Value) :=
  match t with
  | .mapT es =>
    match mapBranch es with
    | .aborted => none
    | .ret v => some (.ok v)
    | .fallthrough => some (scalarChain t)
  | _ => some (scalarChain t)

/-! ## Canonical temporal input terms -/

/-- An Elixir `%Date\x7b\x7d` struct as it arrives over the NIF
boundary (field order is irrelevant to the `HashMap` the code builds;
`calendar` is the extra field a real `Date` carries). -/
def dateMapTerm (year : Int) (month day : Nat) : ElixirTerm :=
  .mapT [(.atomT "__struct__", .atomT "Elixir.Date"),
         (.atomT "calendar", .atomT "Elixir.Calendar.ISO"),
         (.atomT "year", .intT year),
         (.atomT "month", .intT month),
         (.atomT "day", .intT day)]

/-- An Elixir `%DateTime\x7b\x7d` struct with the fields the code
reads; `microsecond` is the `\x7bvalue, precision\x7d` pair. -/
def dtMapTerm (year : Int) (month day hour minute second : Nat)
    (micro : Int) (precision : Nat) : ElixirTerm :=
  .mapT [(.atomT "__struct__", .atomT "Elixir.DateTime"),
         (.atomT "year", .intT year),
         (.atomT "month", .intT month),
         (.atomT "day", .intT day),
         (.atomT "hour", .intT hour),
         (.atomT "minute", .intT minute),
         (.atomT "second", .intT second),
         (.atomT "microsecond", .tupleT [.intT micro, .intT precision])]

/-! ## The calendar algorithm as the specification words it

The spec describes the day count as: 365 or 366 per elapsed year since
1970 (leap iff divisible by 4 and not by 100, unless divisible by
400), plus the month-length-table days for the fully elapsed months of
the target year, plus `day - 1`; then scaled to microseconds.  These
definitions follow those words, to be compared with the source model
above. -/

def specLeap (y : Int) : Bool := decide ((4 ∣ y ∧ ¬(100 ∣ y)) ∨ 400 ∣ y)

/-- Days contributed by the elapsed years `1970 ≤ x < year`. -/
def specYearDays (year : Int) : Int :=
  ((List.range (year - 1970).toNat).map
    (fun (i : Nat) => if specLeap (1970 + (i : Int)) then (366 : Int) else 365)).sum

/-- Days contributed by the fully elapsed months of the target year
(the first `month - 1` entries of the table). -/
def specMonthDays (year : Int) (month : Nat) : Int :=
  ((days_in_month (specLeap year)).take (month - 1)).sum

/-- The claimed closed form for the timestamp magnitude. -/
def specCivilMicros (year : Int) (month day hour minute second : Nat)
    (micro : Int) : Int :=
  (specYearDays year + specMonthDays year month + ((day : Int) - 1)) * 86400000000 +
    (hour : Int) * 3600000000 + (minute : Int) * 60000000 +
    (second : Int) * 1000000 + micro

/-! ## The `execute` NIF -/

/-- Engine interactions `execute` performs, in order. -/
inductive EngineEvent where
  | prepareEv
  | runEv
deriving DecidableEq

/-- The engine-side prepared statement, abstracted to the narrow
contract the source uses: column names, per-index column types, and
the run outcome.  A result row is exposed the way `duckdb` exposes it
to the row closure: a per-index cell read that can fail
(`row.get::<_, Value>(i)`).  Engine-side execution and row-stepping
failures both surface as the `Except.error` of `run`. -/
structure PreparedStmt where
  colNames : List String
  colType : Nat → String
  run : List Value → Except String (List (Nat → Option Value))

/-- The conversion `params.into_iter().map(term_to_duckdb_value).collect::<Result<Vec<_>, _>>()`:
left to right, stopping at the first error; `none` propagates an
abort inside a conversion. -/
def convertParams : List ElixirTerm → Option (Except String (List Value))
  | [] => some (.ok [])
  | t :: rest =>
    match term_to_duckdb_value t with
    | none => none
    | some (.error e) => some (.error e)
    | some (.ok v) =>
      match convertParams rest with
      | none => none
      | some (.error e) => some (.error e)
      | some (.ok vs) => some (.ok (v :: vs))

/-- The loop `(0..).map_while(|i| row.get(i).ok)`: read cells at `start`,
`start+1`, … until a read fails.  The unbounded Rust range is modelled
with explicit fuel; any fuel at least the failure index gives the
fixed point. -/
def readCellsFrom (cells : Nat → Option Value) (start : Nat) : Nat → List Value
  | 0 => []
  | fuel + 1 =>
    match cells start with
    | some v => v :: readCellsFrom cells (start + 1) fuel
    | none => []

def readRow (cells : Nat → Option Value) (fuel : Nat) : List Value :=
  readCellsFrom cells 0 fuel

/-- The construction `stmt.column_names().into_iter().enumerate().map(|(idx, name)|
vec![name, stmt.column_type(idx).to_string()])`. -/
def mkColumns (names : List String) (ctype : Nat → String) : List (List String) :=
  names.enum.map (fun p => [p.2, ctype p.1])

/-- The result struct returned to Elixir. -/
structure DuckexResult where
  columns : List (List String)
  rows : List (List ElixirTerm)
  num_rows : Nat

/-- The body of the `execute` NIF (lib.rs lines 139-200), after the
two lock acquisitions: cache lookup, engine re-preparation, parameter
conversion, run, then result assembly.  The returned event list
records the engine interactions that happened, in order.  `none`
models an abort inside a parameter conversion. -/
def executeModel (lookup : Option String)
    (prep : String → Except String PreparedStmt)
    (params : List ElixirTerm) (fuel : Nat) :
    Option (Except String DuckexResult × List EngineEvent) :=
  match lookup with
  | none => some (.error "Invalid cache index", [])
  | some query =>
    match prep query with
    | .error e => some (.error ("SQL preparation error: " ++ e), [.prepareEv])
    | .ok stmt =>
      match convertParams params with
      | none => none
      | some (.error e) => some (.error e, [.prepareEv])
      | some (.ok vals) =>
        match stmt.run vals with
        | .error e =>
            some (.error ("SQL execution error: " ++ e), [.prepareEv, .runEv])
        | .ok rowReads =>
          let rows := rowReads.map (fun cells => readRow cells fuel)
          let result_rows := rows.map (fun r => r.map duckdb_value_to_term)
          some (.ok ⟨mkColumns stmt.colNames stmt.colType, result_rows, rows.length⟩,
            [.prepareEv, .runEv])

/-! ## Helper lemmas -/

theorem isLeapCode_eq_specLeap (y : Int) : isLeapCode y = specLeap y := by
  rw [Bool.eq_iff_iff]
  simp only [isLeapCode, specLeap, Bool.or_eq_true, Bool.and_eq_true, beq_iff_eq,
    bne_iff_ne, ne_eq, decide_eq_true_eq, Int.dvd_iff_emod_eq_zero]

theorem yearLoopDays_eq_spec (year : Int) : yearLoopDays year = specYearDays year := by
  unfold yearLoopDays specYearDays
  generalize (year - 1970).toNat = n
  induction n with
  | zero => rfl
  | succ k ih =>
      rw [List.range_succ, List.foldl_append, List.map_append, List.sum_append, ih]
      simp [isLeapCode_eq_specLeap]

theorem yearLoopDays_of_le_epoch (year : Int) (hy : year ≤ 1970) :
    yearLoopDays year = 0 := by
  unfold yearLoopDays
  have h : (year - 1970).toNat = 0 := by omega
  rw [h]
  rfl

theorem monthLoopDays_eq_take (l : Bool) (m : Nat) (hm : m ≤ 13) :
    monthLoopDays l m = some (((days_in_month l).take (m - 1)).sum) := by
  interval_cases m <;> cases l <;> rfl

theorem wrap64_eq_self (z : Int) (h1 : -(2 ^ 63) ≤ z) (h2 : z < 2 ^ 63) :
    wrap64 z = z := by
  unfold wrap64
  rw [Int.emod_eq_of_lt (by omega) (by omega)]
  ring

theorem u32sub1_cast (d : Nat) (hd : 1 ≤ d) : ((u32sub1 d : Nat) : Int) = (d : Int) - 1 := by
  unfold u32sub1
  split <;> omega

/-- The loop computation of the DateTime branch equals the closed-form
the specification describes, on well-formed months and days and when
the mathematical result is in signed-64-bit range. -/
theorem civilToEpochMicros_eq_spec (y : Int) (m d h mi s : Nat) (us : Int)
    (hm1 : 1 ≤ m) (hm2 : m ≤ 12) (hd : 1 ≤ d)
    (hlo : -(2 ^ 63) ≤ specCivilMicros y m d h mi s us)
    (hhi : specCivilMicros y m d h mi s us < 2 ^ 63) :
    civilToEpochMicros y m d h mi s us = some (specCivilMicros y m d h mi s us) := by
  unfold civilToEpochMicros
  rw [monthLoopDays_eq_take _ _ (by omega)]
  have hX : (yearLoopDays y + ((days_in_month (isLeapCode y)).take (m - 1)).sum
        + ((u32sub1 d : Nat) : Int)) * 86400 * 1000000
      + (h : Int) * 3600 * 1000000 + (mi : Int) * 60 * 1000000
      + (s : Int) * 1000000 + us = specCivilMicros y m d h mi s us := by
    rw [yearLoopDays_eq_spec, isLeapCode_eq_specLeap, u32sub1_cast d hd]
    unfold specCivilMicros specMonthDays
    ring
  simp only []
  rw [hX, wrap64_eq_self _ hlo hhi]

theorem decode_i32_intT (y : Int) (h1 : -(2 ^ 31) ≤ y) (h2 : y < 2 ^ 31) :
    decode_i32 (.intT y) = some y := by
  simp only [decode_i32]
  rw [if_pos ⟨h1, h2⟩]

theorem decode_u32_intT (m : Nat) (hm : m < 2 ^ 32) :
    decode_u32 (.intT (m : Int)) = some m := by
  simp only [decode_u32]
  rw [if_pos (by omega)]
  simp

theorem decode_microsecond_pair_tup (us : Int) (p : Nat)
    (h1 : -(2 ^ 63) ≤ us) (h2 : us < 2 ^ 63) (hp : p < 2 ^ 32) :
    decode_microsecond_pair (.tupleT [.intT us, .intT (p : Int)]) = some us := by
  simp only [decode_microsecond_pair,
    show decode_i64 (.intT us) = some us by
      simp only [decode_i64]; rw [if_pos ⟨h1, h2⟩],
    decode_u32_intT p hp]

/-- Evaluation of `term_to_duckdb_value` on any map term carrying the
recognized DateTime shape: `__struct__` is the atom `Elixir.DateTime`
and the seven fields decode (the hypotheses state the outcome of the
rustler decode calls the source makes).  The result is whatever the
calendar arithmetic produces — a microsecond timestamp, or an abort. -/
theorem t2dv_datetime_shape (es : List (ElixirTerm × ElixirTerm))
    (y : Int) (m d h mi s : Nat) (us : Int)
    (h0 : atom_to_string ((getField es "__struct__").getD .otherT)
      = some "Elixir.DateTime")
    (hy : (getField es "year").bind decode_i32 = some y)
    (hm : (getField es "month").bind decode_u32 = some m)
    (hd : (getField es "day").bind decode_u32 = some d)
    (hh : (getField es "hour").bind decode_u32 = some h)
    (hmi : (getField es "minute").bind decode_u32 = some mi)
    (hs : (getField es "second").bind decode_u32 = some s)
    (hus : (getField es "microsecond").bind decode_microsecond_pair = some us) :
    term_to_duckdb_value (.mapT es) =
      match civilToEpochMicros y m d h mi s us with
      | some total => some (.ok (.Timestamp .Microsecond total))
      | none => none := by
  have hb : mapBranch es =
      match civilToEpochMicros y m d h mi s us with
      | some total => .ret (.Timestamp .Microsecond total)
      | none => .aborted := by
    simp only [mapBranch, h0]
    rw [if_neg (by decide : ¬("Elixir.DateTime" = "Elixir.Date")), if_pos trivial,
      hy, hm, hd, hh, hmi, hs, hus]
    cases hciv : civilToEpochMicros y m d h mi s us <;>
      simp only [datetimeBranch, hciv]
  simp only [term_to_duckdb_value]
  rw [hb]
  cases civilToEpochMicros y m d h mi s us <;> rfl

/-- Evaluation of `term_to_duckdb_value` on any map term carrying the
recognized Date shape: the result is the zero-padded ISO-8601 text,
never a numeric day-offset value. -/
theorem t2dv_date_shape (es : List (ElixirTerm × ElixirTerm))
    (y : Int) (m d : Nat)
    (h0 : atom_to_string ((getField es "__struct__").getD .otherT)
      = some "Elixir.Date")
    (hy : (getField es "year").bind decode_i32 = some y)
    (hm : (getField es "month").bind decode_u32 = some m)
    (hd : (getField es "day").bind decode_u32 = some d) :
    term_to_duckdb_value (.mapT es) =
      some (.ok (.Text (date_string y m d))) := by
  have hb : mapBranch es = .ret (.Text (date_string y m d)) := by
    simp only [mapBranch, h0]
    rw [if_pos trivial, hy, hm, hd]
    rfl
  simp only [term_to_duckdb_value]
  rw [hb]

/-! ## Claims -/

/-- C1: for every input carrying the recognized civil-timestamp shape
with decodable fields (year at least 1970, month and day in calendar
range, the exact result representable in a signed 64-bit integer),
the Timestamp magnitude produced by `term_to_duckdb_value` equals the
specified closed form: 365/366 per elapsed year since 1970 under the
stated leap rule, plus the month-table days of the fully elapsed
months (February 29 in a leap target year), plus day minus one, all
scaled to microseconds and added to the time-of-day contributions.
In particular (1970,1,1,0,0,0,0) maps to 0 and (2000,3,1,0,0,0,0)
counts February 2000 as 29 days. -/
theorem c1_civil_timestamp_algorithm :
    (∀ (es : List (ElixirTerm × ElixirTerm)) (y : Int) (m d h mi s : Nat) (us : Int),
      atom_to_string ((getField es "__struct__").getD .otherT) = some "Elixir.DateTime" →
      (getField es "year").bind decode_i32 = some y →
      (getField es "month").bind decode_u32 = some m →
      (getField es "day").bind decode_u32 = some d →
      (getField es "hour").bind decode_u32 = some h →
      (getField es "minute").bind decode_u32 = some mi →
      (getField es "second").bind decode_u32 = some s →
      (getField es "microsecond").bind decode_microsecond_pair = some us →
      1970 ≤ y → 1 ≤ m → m ≤ 12 → 1 ≤ d →
      -(2 ^ 63) ≤ specCivilMicros y m d h mi s us →
      specCivilMicros y m d h mi s us < 2 ^ 63 →
      term_to_duckdb_value (.mapT es)
        = some (.ok (.Timestamp .Microsecond (specCivilMicros y m d h mi s us)))) ∧
    term_to_duckdb_value (dtMapTerm 1970 1 1 0 0 0 0 6)
      = some (.ok (.Timestamp .Microsecond 0)) ∧
    term_to_duckdb_value (dtMapTerm 2000 3 1 0 0 0 0 6)
      = some (.ok (.Timestamp .Microsecond 951868800000000)) ∧
    specMonthDays 2000 3 = 31 + 29 ∧
    specCivilMicros 2000 3 1 0 0 0 0 = 951868800000000 := by
  refine ⟨?_, rfl, rfl, rfl, rfl⟩
  intro es y m d h mi s us h0 hy hm hd hh hmi hs hus _ hm1 hm2 hd1 hlo hhi
  rw [t2dv_datetime_shape es y m d h mi s us h0 hy hm hd hh hmi hs hus,
    civilToEpochMicros_eq_spec y m d h mi s us hm1 hm2 hd1 hlo hhi]

/-- Witness for C1 at the concrete input (2000,3,1,0,0,0,0). -/
theorem c1_civil_timestamp_algorithm_witness :
    term_to_duckdb_value (.mapT [(.atomT "__struct__", .atomT "Elixir.DateTime"),
        (.atomT "year", .intT 2000),
        (.atomT "month", .intT 3),
        (.atomT "day", .intT 1),
        (.atomT "hour", .intT 0),
        (.atomT "minute", .intT 0),
        (.atomT "second", .intT 0),
        (.atomT "microsecond", .tupleT [.intT 0, .intT 6])])
      = some (.ok (.Timestamp .Microsecond (specCivilMicros 2000 3 1 0 0 0 0))) :=
  c1_civil_timestamp_algorithm.1
    [(.atomT "__struct__", .atomT "Elixir.DateTime"),
      (.atomT "year", .intT 2000),
      (.atomT "month", .intT 3),
      (.atomT "day", .intT 1),
      (.atomT "hour", .intT 0),
      (.atomT "minute", .intT 0),
      (.atomT "second", .intT 0),
      (.atomT "microsecond", .tupleT [.intT 0, .intT 6])]
    2000 3 1 0 0 0 0 rfl rfl rfl rfl rfl rfl rfl rfl
    (by norm_num) (by norm_num) (by norm_num) (by norm_num) (by decide) (by decide)

/-- C2: the specification says `term_to_duckdb_value` either returns
a Value or a descriptive error string and never aborts, also for
DateTime-shaped inputs with arbitrary month fields; but the code
indexes the 12-entry `days_in_month` table at `m - 1` for every `m`
below `month`, so a decodable DateTime record with `month = 14`
reaches index 12 and aborts (out-of-bounds panic) instead of
returning anything — modelled by the conversion evaluating to
`none`. -/
theorem c2_month_14_aborts :
    term_to_duckdb_value (dtMapTerm 2000 14 1 0 0 0 0 6) = none ∧
    monthLoopDays (isLeapCode 2000) 14 = none := ⟨rfl, rfl⟩

/-- C6: a recognized civil-date record becomes `Text` holding the
zero-padded ISO-8601 string (never a numeric day-offset value), while
a recognized civil-timestamp record becomes a microsecond-unit
Timestamp; both struct checks fire inside the map branch, which runs
before the numeric/string/boolean/null dispatch. -/
theorem c6_date_text_timestamp :
    (∀ (es : List (ElixirTerm × ElixirTerm)) (y : Int) (m d : Nat),
      atom_to_string ((getField es "__struct__").getD .otherT) = some "Elixir.Date" →
      (getField es "year").bind decode_i32 = some y →
      (getField es "month").bind decode_u32 = some m →
      (getField es "day").bind decode_u32 = some d →
      term_to_duckdb_value (.mapT es) = some (.ok (.Text (date_string y m d)))) ∧
    (∀ (es : List (ElixirTerm × ElixirTerm)) (y : Int) (m d h mi s : Nat) (us : Int),
      atom_to_string ((getField es "__struct__").getD .otherT) = some "Elixir.DateTime" →
      (getField es "year").bind decode_i32 = some y →
      (getField es "month").bind decode_u32 = some m →
      (getField es "day").bind decode_u32 = some d →
      (getField es "hour").bind decode_u32 = some h →
      (getField es "minute").bind decode_u32 = some mi →
      (getField es "second").bind decode_u32 = some s →
      (getField es "microsecond").bind decode_microsecond_pair = some us →
      term_to_duckdb_value (.mapT es) =
        match civilToEpochMicros y m d h mi s us with
        | some total => some (.ok (.Timestamp .Microsecond total))
        | none => none) ∧
    term_to_duckdb_value (dateMapTerm 2024 3 7) = some (.ok (.Text "2024-03-07")) ∧
    date_string 2024 3 7 = "2024-03-07" :=
  ⟨t2dv_date_shape, t2dv_datetime_shape, rfl, rfl⟩

/-- Witness for C6 at the concrete date 2024-03-07. -/
theorem c6_date_text_timestamp_witness :
    term_to_duckdb_value (.mapT [(.atomT "__struct__", .atomT "Elixir.Date"),
        (.atomT "calendar", .atomT "Elixir.Calendar.ISO"),
        (.atomT "year", .intT 2024),
        (.atomT "month", .intT 3),
        (.atomT "day", .intT 7)])
      = some (.ok (.Text (date_string 2024 3 7))) :=
  c6_date_text_timestamp.1
    [(.atomT "__struct__", .atomT "Elixir.Date"),
      (.atomT "calendar", .atomT "Elixir.Calendar.ISO"),
      (.atomT "year", .intT 2024),
      (.atomT "month", .intT 3),
      (.atomT "day", .intT 7)]
    2024 3 7 rfl rfl rfl rfl

/-- C10 counterexample: the claim says the conversion collapses all
pre-epoch years onto the epoch year, but the month-length table still
depends on the leap status of the target year: the fields
(1968,3,1,0,0,0,0) produce 60 elapsed days (February 1968 counted as
29) while (1970,3,1,0,0,0,0) produce 59, hence distinct Timestamp
values. -/
theorem c10_counterexample_leap_table_pre_epoch :
    term_to_duckdb_value (dtMapTerm 1968 3 1 0 0 0 0 6)
      = some (.ok (.Timestamp .Microsecond 5184000000000)) ∧
    term_to_duckdb_value (dtMapTerm 1970 3 1 0 0 0 0 6)
      = some (.ok (.Timestamp .Microsecond 5097600000000)) ∧
    (5184000000000 : Int) ≠ (5097600000000 : Int) := ⟨rfl, rfl, by decide⟩

/-- C10 amended: for every year up to 1970 the elapsed-year loop
contributes zero days, so all pre-epoch years with the same computed
leap status map identically — in particular (1950,1,1,0,0,0,0) and
(1970,1,1,0,0,0,0) both produce Timestamp 0, so the conversion is
neither injective nor monotonic in the year field below 1970. -/
theorem c10_pre_epoch_collapse :
    (∀ year : Int, year ≤ 1970 → yearLoopDays year = 0) ∧
    (∀ (y1 y2 : Int) (m d h mi s : Nat) (us : Int), y1 ≤ 1970 → y2 ≤ 1970 →
      isLeapCode y1 = isLeapCode y2 →
      civilToEpochMicros y1 m d h mi s us = civilToEpochMicros y2 m d h mi s us) ∧
    term_to_duckdb_value (dtMapTerm 1950 1 1 0 0 0 0 6)
      = some (.ok (.Timestamp .Microsecond 0)) ∧
    term_to_duckdb_value (dtMapTerm 1970 1 1 0 0 0 0 6)
      = some (.ok (.Timestamp .Microsecond 0)) ∧
    ((1950 : Int) ≠ 1970) := by
  refine ⟨fun year hy => yearLoopDays_of_le_epoch year hy, ?_, rfl, rfl, by decide⟩
  intro y1 y2 m d h mi s us h1 h2 hleap
  simp only [civilToEpochMicros, hleap, yearLoopDays_of_le_epoch y1 h1,
    yearLoopDays_of_le_epoch y2 h2]

/-- Witness for C10: the amended statement applied at 1950 and
1970. -/
theorem c10_pre_epoch_collapse_witness :
    yearLoopDays 1950 = 0 ∧
    civilToEpochMicros 1950 1 1 0 0 0 0 = civilToEpochMicros 1970 1 1 0 0 0 0 :=
  ⟨c10_pre_epoch_collapse.1 1950 (by decide),
    c10_pre_epoch_collapse.2.1 1950 1970 1 1 0 0 0 0 (by decide) (by decide) rfl⟩

/-- C3: `duckdb_value_to_term` is total — it is a function on the
whole value model (the Lean termination checker certifies the
recursion through arbitrarily nested List, Array, Struct, Map and
Union values), it has no error outcome, and every value shape not
explicitly enumerated in the source match (HugeInt, Decimal,
Interval) is rendered as its debug-style fallback string. -/
theorem c3_engine_to_host_total :
    (∀ v : Value, ∃ t : ElixirTerm, duckdb_value_to_term v = t) ∧
    (∀ i, duckdb_value_to_term (.HugeInt i) = .binT (some (debugValue (.HugeInt i)))) ∧
    (∀ dbg, duckdb_value_to_term (.Decimal dbg)
      = .binT (some (debugValue (.Decimal dbg)))) ∧
    (∀ mo da na, duckdb_value_to_term (.Interval mo da na)
      = .binT (some (debugValue (.Interval mo da na)))) ∧
    (∀ xs, duckdb_value_to_term (.List xs) = .listT (duckdbValuesToTerms xs)) ∧
    (∀ fs, duckdb_value_to_term (.Struct fs) = .listT (structFieldsToTerms fs)) ∧
    (∀ es, duckdb_value_to_term (.Map es) = .listT (mapEntriesToTerms es)) ∧
    (∀ v, duckdb_value_to_term (.Union v) = duckdb_value_to_term v) :=
  ⟨fun v => ⟨duckdb_value_to_term v, rfl⟩, fun _ => rfl, fun _ => rfl,
    fun _ _ _ => rfl, fun _ => rfl, fun _ => rfl, fun _ => rfl, fun _ => rfl⟩

theorem t2dv_intT (i : Int) (h1 : -(2 ^ 63) ≤ i) (h2 : i < 2 ^ 63) :
    term_to_duckdb_value (.intT i) = some (.ok (.BigInt i)) := by
  have hdec : decode_i64 (.intT i) = some i := by
    simp only [decode_i64]
    rw [if_pos ⟨h1, h2⟩]
  show some (scalarChain (.intT i)) = _
  simp [scalarChain, is_number, hdec]

/-- C7 counterexample: the claim says Null round-trips to Null, but
`Value::Null` encodes to the nil atom, which the infallible
truthiness boolean decode catches before the nil check, yielding
Boolean(false) — not Null. -/
theorem c7_counterexample_null_roundtrip :
    duckdb_value_to_term .Null = .atomT "nil" ∧
    term_to_duckdb_value (duckdb_value_to_term .Null)
      = some (.ok (.Boolean false)) ∧
    (some (Except.ok (Value.Boolean false)) : Option (Except String Value))
      ≠ some (.ok .Null) := ⟨rfl, rfl, by simp⟩

/-- C7 amended: round-trip for the scalar kinds whose host
representation is accepted back as a bound parameter — BigInt,
Boolean and Text round-trip to themselves; the narrower signed
widths and Double round-trip to the numerically equal widened kind
the binding direction always produces; Null does not round-trip: the
nil atom is caught by the truthiness boolean decode before the nil
check, so it comes back as Boolean(false). -/
theorem c7_round_trip :
    (∀ i : Int, -(2 ^ 63) ≤ i → i < 2 ^ 63 →
      term_to_duckdb_value (duckdb_value_to_term (.BigInt i))
        = some (.ok (.BigInt i))) ∧
    (∀ b : Bool, term_to_duckdb_value (duckdb_value_to_term (.Boolean b))
      = some (.ok (.Boolean b))) ∧
    (∀ s : String, term_to_duckdb_value (duckdb_value_to_term (.Text s))
      = some (.ok (.Text s))) ∧
    (term_to_duckdb_value (duckdb_value_to_term .Null)
      = some (.ok (.Boolean false))) ∧
    (∀ i : Int, -(2 ^ 7) ≤ i → i < 2 ^ 7 →
      term_to_duckdb_value (duckdb_value_to_term (.TinyInt i))
        = some (.ok (.BigInt i))) ∧
    (∀ i : Int, -(2 ^ 15) ≤ i → i < 2 ^ 15 →
      term_to_duckdb_value (duckdb_value_to_term (.SmallInt i))
        = some (.ok (.BigInt i))) ∧
    (∀ i : Int, -(2 ^ 31) ≤ i → i < 2 ^ 31 →
      term_to_duckdb_value (duckdb_value_to_term (.Int i))
        = some (.ok (.BigInt i))) ∧
    (∀ q : ℚ, term_to_duckdb_value (duckdb_value_to_term (.Double q))
      = some (.ok (.Double q))) := by
  refine ⟨fun i h1 h2 => t2dv_intT i h1 h2, fun b => ?_, fun s => rfl, rfl,
    fun i h1 h2 => t2dv_intT i (by omega) (by omega),
    fun i h1 h2 => t2dv_intT i (by omega) (by omega),
    fun i h1 h2 => t2dv_intT i (by omega) (by omega),
    fun q => rfl⟩
  cases b <;> rfl

/-- Witness for C7 at the integer 42. -/
theorem c7_round_trip_witness :
    term_to_duckdb_value (duckdb_value_to_term (.BigInt 42))
      = some (.ok (.BigInt 42)) :=
  c7_round_trip.1 42 (by norm_num) (by norm_num)

/-- The finite values of IEEE binary32: mantissa below 2^24 scaled by
a power of two in the binary32 range. -/
def F32Representable (q : ℚ) : Prop :=
  ∃ (m e : ℤ), |m| < 2 ^ 24 ∧ -149 ≤ e ∧ e ≤ 104 ∧ q = (m : ℚ) * 2 ^ e

/-- The finite values of IEEE binary64. -/
def F64Representable (q : ℚ) : Prop :=
  ∃ (m e : ℤ), |m| < 2 ^ 53 ∧ -1074 ≤ e ∧ e ≤ 971 ∧ q = (m : ℚ) * 2 ^ e

/-- C9: in `duckdb_value_to_term` every integer width maps to the
host integer with the same value; `UBigInt` narrows by reinterpreting
the unsigned payload as signed 64-bit — for payloads above the i64
maximum the result is the payload minus 2^64, the unique signed
64-bit value congruent to it modulo 2^64; `Float` widens to the host
64-bit float exactly (every binary32 finite value is a binary64
finite value, so the value is carried over unchanged). -/
theorem c9_numeric_conversions :
    (∀ i : Int, duckdb_value_to_term (.TinyInt i) = .intT i) ∧
    (∀ i : Int, duckdb_value_to_term (.SmallInt i) = .intT i) ∧
    (∀ i : Int, duckdb_value_to_term (.Int i) = .intT i) ∧
    (∀ i : Int, duckdb_value_to_term (.BigInt i) = .intT i) ∧
    (∀ n : Nat, duckdb_value_to_term (.UTinyInt n) = .intT n) ∧
    (∀ n : Nat, duckdb_value_to_term (.USmallInt n) = .intT n) ∧
    (∀ n : Nat, duckdb_value_to_term (.UInt n) = .intT n) ∧
    (∀ n : Nat, n < 2 ^ 63 → duckdb_value_to_term (.UBigInt n) = .intT n) ∧
    (∀ n : Nat, n < 2 ^ 64 → 2 ^ 63 - 1 < (n : Int) →
      duckdb_value_to_term (.UBigInt n) = .intT ((n : Int) - 2 ^ 64) ∧
      ((n : Int) - 2 ^ 64) % 2 ^ 64 = (n : Int) % 2 ^ 64 ∧
      -(2 ^ 63) ≤ (n : Int) - 2 ^ 64 ∧ (n : Int) - 2 ^ 64 < 2 ^ 63) ∧
    (∀ q : ℚ, duckdb_value_to_term (.Float q) = .floatT q) ∧
    (∀ q : ℚ, duckdb_value_to_term (.Double q) = .floatT q) ∧
    (∀ q : ℚ, F32Representable q → F64Representable q) := by
  refine ⟨fun _ => rfl, fun _ => rfl, fun _ => rfl, fun _ => rfl, fun _ => rfl,
    fun _ => rfl, fun _ => rfl, fun n hn => ?_, fun n hn hbig => ?_,
    fun _ => rfl, fun _ => rfl, fun q hq => ?_⟩
  · show ElixirTerm.intT (u64AsI64 n) = _
    simp only [u64AsI64]
    rw [if_pos hn]
  · refine ⟨?_, by omega, by omega, by omega⟩
    show ElixirTerm.intT (u64AsI64 n) = _
    simp only [u64AsI64]
    rw [if_neg (by omega)]
  · obtain ⟨mm, e, habs, he1, he2, hq⟩ := hq
    exact ⟨mm, e, habs.trans (by norm_num), by omega, by omega, hq⟩

/-- Witness for C9: the UBigInt narrowing at 2^63 and the binary32
value one half. -/
theorem c9_numeric_conversions_witness :
    duckdb_value_to_term (.UBigInt (2 ^ 63))
      = .intT (((2 ^ 63 : Nat) : Int) - 2 ^ 64) ∧
    F64Representable (1 / 2) := by
  obtain ⟨-, -, -, -, -, -, -, -, hub, -, -, hf⟩ := c9_numeric_conversions
  exact ⟨(hub (2 ^ 63) (by norm_num) (by norm_num)).1,
    hf (1 / 2) ⟨1, -1, by norm_num⟩⟩

/-- The string/boolean/nil tail never reaches the error return: a
binary that decodes as a string yields Text, and every other term is
caught by the infallible truthiness boolean decode. -/
theorem afterNumberChain_ok (t : ElixirTerm) :
    ∃ v, afterNumberChain t = .ok v := by
  unfold afterNumberChain
  split
  · exact ⟨_, rfl⟩
  · exact ⟨.Boolean (is_truthy t), rfl⟩

/-- The scalar dispatch always produces a Value, never an error. -/
theorem scalarChain_ok (t : ElixirTerm) : ∃ v, scalarChain t = .ok v := by
  unfold scalarChain
  split
  · split
    · exact ⟨_, rfl⟩
    · split
      · exact ⟨_, rfl⟩
      · exact afterNumberChain_ok t
  · exact afterNumberChain_ok t

theorem t2dv_ok_of_scalar (t : ElixirTerm)
    (h : term_to_duckdb_value t = some (scalarChain t)) :
    ∃ v, term_to_duckdb_value t = some (.ok v) := by
  obtain ⟨v, hv⟩ := scalarChain_ok t
  exact ⟨v, by rw [h, hv]⟩

/-- `term_to_duckdb_value` either produces a Value or aborts in the
calendar arithmetic; it never returns an error string. -/
theorem term_to_duckdb_value_total (t : ElixirTerm) :
    (∃ v, term_to_duckdb_value t = some (.ok v)) ∨
    term_to_duckdb_value t = none := by
  cases t with
  | mapT es =>
    cases hb : mapBranch es with
    | aborted => exact Or.inr (by simp only [term_to_duckdb_value, hb])
    | ret v => exact Or.inl ⟨v, by simp only [term_to_duckdb_value, hb]⟩
    | fallthrough =>
      exact Or.inl (t2dv_ok_of_scalar _ (by simp only [term_to_duckdb_value, hb]))
  | intT i => exact Or.inl (t2dv_ok_of_scalar _ rfl)
  | floatT q => exact Or.inl (t2dv_ok_of_scalar _ rfl)
  | atomT a => exact Or.inl (t2dv_ok_of_scalar _ rfl)
  | binT u => exact Or.inl (t2dv_ok_of_scalar _ rfl)
  | listT xs => exact Or.inl (t2dv_ok_of_scalar _ rfl)
  | tupleT xs => exact Or.inl (t2dv_ok_of_scalar _ rfl)
  | otherT => exact Or.inl (t2dv_ok_of_scalar _ rfl)

/-- C4: the specification says every input that is not temporal,
numeric, string, boolean or nil fails with an UnsupportedType error
naming the detected category — but the boolean decode is rustler
truthiness, which accepts every term, so the category classifier
(lib.rs lines 362-379) and the nil branch (lines 354-359) are
unreachable dead code: a list converts to Boolean(true), a
non-temporal map converts to Boolean(true), a bare tuple converts to
Boolean(true), an undecodable bignum converts to Boolean(true), the
nil atom converts to Boolean(false), and no input produces an error
at all — every conversion yields a Value or aborts in the calendar
arithmetic. -/
theorem c4_no_unsupported_type_errors :
    term_to_duckdb_value (.listT []) = some (.ok (.Boolean true)) ∧
    term_to_duckdb_value (.mapT [(.intT 1, .intT 2)]) = some (.ok (.Boolean true)) ∧
    term_to_duckdb_value (.tupleT []) = some (.ok (.Boolean true)) ∧
    term_to_duckdb_value (.intT (2 ^ 70)) = some (.ok (.Boolean true)) ∧
    term_to_duckdb_value (.atomT "nil") = some (.ok (.Boolean false)) ∧
    (∀ t : ElixirTerm,
      (∃ v, term_to_duckdb_value t = some (.ok v)) ∨
      term_to_duckdb_value t = none) :=
  ⟨rfl, rfl, rfl, rfl, rfl, term_to_duckdb_value_total⟩

/-- A statement for the C5 scenario: one column, no rows. -/
def c5Stmt : PreparedStmt :=
  ⟨["x"], fun _ => "INTEGER", fun _ => .ok []⟩

/-- C5: the specification says a nested-list parameter fails
conversion and aborts the whole execute before any engine
interaction, producing no engine error and never running the
statement — but parameter conversion cannot fail (the truthiness
boolean decode accepts every term), so execute converts the list to
Boolean(true), re-prepares against the engine and runs the
statement: the engine trace holds both the preparation and the run
event and the call succeeds. -/
theorem c5_list_param_statement_runs :
    term_to_duckdb_value (.listT []) = some (.ok (.Boolean true)) ∧
    convertParams [.listT []] = some (.ok [.Boolean true]) ∧
    executeModel (some "INSERT INTO t VALUES (?)") (fun _ => .ok c5Stmt)
        [.listT []] 1
      = some (.ok ⟨[["x", "INTEGER"]], [], 0⟩, [.prepareEv, .runEv]) ∧
    EngineEvent.runEv ∈ ([EngineEvent.prepareEv, EngineEvent.runEv] :
      List EngineEvent) :=
  ⟨rfl, rfl, rfl, by decide⟩

/-- Reading cells from `start` until the first failure returns
exactly the cells below the failure index when the fuel reaches
it. -/
theorem readCellsFrom_length (cells : Nat → Option Value) (n : Nat)
    (hc : ∀ i, (cells i).isSome ↔ i < n) :
    ∀ (fuel start : Nat), n ≤ start + fuel →
      (readCellsFrom cells start fuel).length = n - start := by
  intro fuel
  induction fuel with
  | zero =>
    intro start hle
    simp only [readCellsFrom, List.length_nil]
    omega
  | succ k ih =>
    intro start hle
    unfold readCellsFrom
    cases hcell : cells start with
    | some v =>
      have hlt : start < n := (hc start).mp (by simp [hcell])
      simp only [List.length_cons, ih (start + 1) (by omega)]
      omega
    | none =>
      have hge : ¬ start < n := fun hlt => by
        have := (hc start).mpr hlt
        rw [hcell] at this
        simp at this
      simp only [List.length_nil]
      omega

theorem mkColumns_length (names : List String) (ctype : Nat → String) :
    (mkColumns names ctype).length = names.length := by
  simp [mkColumns]

/-- C8: whenever `execute` reaches a successful run, the assembled
result satisfies the shape invariant — the column list has one
descriptor per reported column name, every row has exactly as many
cells as there are columns (given the engine contract that a cell
read at index i succeeds exactly when i is below the column count),
and `num_rows` equals the number of rows. -/
theorem c8_result_shape
    (q : String) (prep : String → Except String PreparedStmt)
    (stmt : PreparedStmt) (params : List ElixirTerm) (vals : List Value)
    (rowReads : List (Nat → Option Value)) (fuel : Nat)
    (hprep : prep q = .ok stmt)
    (hconv : convertParams params = some (.ok vals))
    (hrun : stmt.run vals = .ok rowReads)
    (hcells : ∀ cells ∈ rowReads, ∀ i,
      (cells i).isSome ↔ i < stmt.colNames.length)
    (hfuel : stmt.colNames.length ≤ fuel) :
    ∃ res, executeModel (some q) prep params fuel
        = some (.ok res, [.prepareEv, .runEv]) ∧
      res.columns.length = stmt.colNames.length ∧
      (∀ row ∈ res.rows, row.length = res.columns.length) ∧
      res.num_rows = res.rows.length := by
  have hexec : executeModel (some q) prep params fuel
      = some (.ok ⟨mkColumns stmt.colNames stmt.colType,
          (rowReads.map (fun cells => readRow cells fuel)).map
            (fun r => r.map duckdb_value_to_term),
          (rowReads.map (fun cells => readRow cells fuel)).length⟩,
        [.prepareEv, .runEv]) := by
    simp only [executeModel, hprep, hconv, hrun]
  refine ⟨_, hexec, mkColumns_length _ _, ?_, ?_⟩
  · intro row hrow
    simp only [List.mem_map] at hrow
    obtain ⟨r, ⟨cells, hcmem, hrEq⟩, hrowEq⟩ := hrow
    subst hrowEq hrEq
    rw [List.length_map, mkColumns_length]
    have := readCellsFrom_length cells stmt.colNames.length
      (hcells cells hcmem) fuel 0 (by omega)
    simpa [readRow] using this
  · simp [List.length_map]

/-- Witness for C8: a two-column statement with one well-formed
row. -/
def c8Stmt : PreparedStmt :=
  ⟨["a", "b"], fun _ => "INTEGER",
    fun _ => .ok [fun i => if i < 2 then some (.BigInt 1) else none]⟩

theorem c8_result_shape_witness :
    ∃ res, executeModel (some "SELECT a, b FROM t") (fun _ => .ok c8Stmt) [] 2
        = some (.ok res, [.prepareEv, .runEv]) ∧
      res.columns.length = c8Stmt.colNames.length ∧
      (∀ row ∈ res.rows, row.length = res.columns.length) ∧
      res.num_rows = res.rows.length :=
  c8_result_shape "SELECT a, b FROM t" (fun _ => .ok c8Stmt) c8Stmt [] []
    [fun i => if i < 2 then some (.BigInt 1) else none] 2 rfl rfl rfl
    (by
      intro cells hc i
      simp only [List.mem_singleton] at hc
      subst hc
      by_cases hi : i < 2 <;> simp [c8Stmt, hi])
    (by norm_num [c8Stmt])

end Duckex
